import Mathlib

/-!
Verification of the SmartStock frontend session & authorization core.

Shallow embedding of:
- `src/stores/authStore.ts` (session store: login/logout/updateUser/updateTokens,
  persisted-shape migration in `onRehydrateStorage`),
- the axios response interceptor in `src/lib/api.ts` (401 refresh-and-retry pipeline),
- the authorization predicates `canEditProduct` / `canDeleteProduct`
  (`src/pages/Products.tsx`) and `canAdjustStock` (`src/pages/Inventory.tsx`),
- the stock-adjustment preview arithmetic (`src/pages/Inventory.tsx`).

JavaScript optional string fields are modelled as `Option String`; JavaScript
truthiness of such a field (`undefined`/`null`/`""` are falsy) is `truthy`.
JavaScript numbers reaching the preview arithmetic are integers here
(the form registers `quantityChanged` with `valueAsNumber: true`).
-/

namespace SmartStock

/-- JavaScript truthiness of an optional string: `undefined`/`null` (`none`)
and the empty string are falsy, every other string is truthy. -/
def truthy : Option String → Bool
  | none => false
  | some s => s != ""

/-- `x || 0` for a JavaScript number that is an integer: identity on `Int`
(0 is its own JS-falsy default). Mirrors `(quantityChanged || 0)`. -/
def jsOr0 (q : Int) : Int :=
  if q = 0 then 0 else q

/-- User role, from `authStore.ts`: `role: 'manager' | 'staff'`. -/
inductive Role where
  | manager
  | staff
deriving DecidableEq

/-- The `User` interface of `src/stores/authStore.ts` (lines 4-14). -/
structure User where
  id : String
  name : String
  email : String
  role : Role
  departmentId : Option String
  departmentName : Option String
  phone : Option String
  lastLogin : Option String
  createdAt : String
deriving DecidableEq

/-- `Partial<User>`, the argument of `updateUser`: a present key overrides
the field (outer `some`), an absent key (outer `none`) keeps it. -/
structure UserUpdate where
  id : Option String
  name : Option String
  email : Option String
  role : Option Role
  departmentId : Option (Option String)
  departmentName : Option (Option String)
  phone : Option (Option String)
  lastLogin : Option (Option String)
  createdAt : Option String
deriving DecidableEq

/-- The object spread `{ ...currentUser, ...userUpdate }` in `updateUser`. -/
def mergeUser (u : User) (p : UserUpdate) : User :=
  { id := p.id.getD u.id
    name := p.name.getD u.name
    email := p.email.getD u.email
    role := p.role.getD u.role
    departmentId := p.departmentId.getD u.departmentId
    departmentName := p.departmentName.getD u.departmentName
    phone := p.phone.getD u.phone
    lastLogin := p.lastLogin.getD u.lastLogin
    createdAt := p.createdAt.getD u.createdAt }

/-- The state slice of `useAuthStore` (`authStore.ts` lines 16-21, 33-38). -/
structure AuthState where
  user : Option User
  accessToken : Option String
  refreshToken : Option String
  isAuthenticated : Bool
  isLoading : Bool
deriving DecidableEq

/-- The store's initial state (`authStore.ts` lines 34-38). -/
def initialState : AuthState :=
  { user := none
    accessToken := none
    refreshToken := none
    isAuthenticated := false
    isLoading := false }

/-- `login` (`authStore.ts` lines 40-48): `set` with every field listed. -/
def login (st : AuthState) (u : User) (accessToken refreshToken : String) : AuthState :=
  { st with
    user := some u
    accessToken := some accessToken
    refreshToken := some refreshToken
    isAuthenticated := true
    isLoading := false }

/-- `logout` (`authStore.ts` lines 50-58): clears actor and both credentials. -/
def logout (st : AuthState) : AuthState :=
  { st with
    user := none
    accessToken := none
    refreshToken := none
    isAuthenticated := false
    isLoading := false }

/-- `updateUser` (`authStore.ts` lines 60-67): merges the partial update into
the current user when one exists, otherwise does nothing. -/
def updateUser (st : AuthState) (upd : UserUpdate) : AuthState :=
  match st.user with
  | some u => { st with user := some (mergeUser u upd) }
  | none => st

/-- `setLoading` (`authStore.ts` lines 69-71). -/
def setLoading (st : AuthState) (loading : Bool) : AuthState :=
  { st with isLoading := loading }

/-- `updateTokens` (`authStore.ts` lines 73-78):
`set({ accessToken, ...(refreshToken && { refreshToken }) })` — always replaces
the access token; replaces the refresh token only when the argument is truthy. -/
def updateTokens (st : AuthState) (accessToken : String) (refreshToken : Option String) : AuthState :=
  { st with
    accessToken := some accessToken
    refreshToken := if truthy refreshToken = true then refreshToken else st.refreshToken }

/-- The session invariant of the spec: `isAuthenticated == (actor != null && accessToken != null)`. -/
def sessionInvariant (st : AuthState) : Bool :=
  st.isAuthenticated == (st.user.isSome && st.accessToken.isSome)

/-- A product as seen by the authorization predicates: only the backend's
snake_case `department_id` field is consulted (`Products.tsx` line 39,
`Inventory.tsx` line 48). -/
structure Product where
  name : String
  department_id : Option String
deriving DecidableEq

/-- `canEditProduct` (`Products.tsx` lines 30-43). -/
def canEditProduct (user : Option User) (product : Product) : Bool :=
  match user with
  | none => false
  | some u =>
    if u.role = Role.manager then true
    else if u.role = Role.staff then
      truthy u.departmentId && (product.department_id == u.departmentId)
    else false

/-- `canAdjustStock` (`Inventory.tsx` lines 27-54); same decision logic as
`canEditProduct` (the debug logging has no effect on the result). -/
def canAdjustStock (user : Option User) (product : Product) : Bool :=
  match user with
  | none => false
  | some u =>
    if u.role = Role.manager then true
    else if u.role = Role.staff then
      truthy u.departmentId && (product.department_id == u.departmentId)
    else false

/-- `canDeleteProduct` (`Products.tsx` lines 45-48): `user?.role === 'manager'`. -/
def canDeleteProduct (user : Option User) : Bool :=
  match user with
  | none => false
  | some u => u.role == Role.manager

/-- The `changeType` values of the stock-adjustment form (`Inventory.tsx` line 13). -/
inductive ChangeType where
  | restock
  | sale
  | adjustment
  | «return»
deriving DecidableEq

/-- The "New Stock" preview (`Inventory.tsx` lines 376-382):
`changeType === 'sale' || (changeType === 'adjustment' && quantityChanged > stock)
  ? stock - (quantityChanged || 0) : stock + (quantityChanged || 0)`. -/
def previewNewStock (changeType : ChangeType) (currentStock quantityChanged : Int) : Int :=
  if changeType = ChangeType.sale ∨
     (changeType = ChangeType.adjustment ∧ currentStock < quantityChanged) then
    currentStock - jsOr0 quantityChanged
  else
    currentStock + jsOr0 quantityChanged

/-- An axios request config as far as the response interceptor reads or
writes it: the per-call `_retry` flag and the `Authorization` header
(`api.ts` lines 38-55). -/
structure ApiRequest where
  retryFlag : Bool
  authHeader : Option String
deriving DecidableEq

/-- The error the response interceptor receives: `error.response?.status`
(`none` when no response arrived), `error.response?.data?.error`, and
`error.message`. -/
structure ErrorResponse where
  status : Option Nat
  errorMsg : Option String
  message : Option String
deriving DecidableEq

/-- Outcome of `axios.post('/api/auth/refresh', { refreshToken })`: either a
response carrying `data.accessToken`, or a rejection. -/
inductive RefreshOutcome where
  | success (accessToken : String)
  | failure
deriving DecidableEq

/-- What the response-error interceptor hands back to the caller:
`retried r` — the original call was re-issued (exactly once) and its result
`r` is returned; `sessionExpired loc msg` — logout cascade, browser redirect
to `loc` and error toast `msg`, original error rejected; `rejected t` — the
original error is rejected unchanged after the optional toast `t`. -/
inductive InterceptorResult (α : Type) where
  | retried (result : α)
  | sessionExpired (redirect : String) (toastMsg : String)
  | rejected (toastMsg : Option String)
deriving DecidableEq

/-- The allow-list of backend error strings that must not raise an automatic
toast (`api.ts` line 68). -/
def silentErrors : List String :=
  ["Invalid credentials", "User not found"]

/-- The toast raised by the interceptor's fall-through branch
(`api.ts` lines 66-74). -/
def otherErrorToast (e : ErrorResponse) : Option String :=
  if truthy e.errorMsg = true then
    if (e.errorMsg.getD "") ∈ silentErrors then none else e.errorMsg
  else if truthy e.message = true then e.message
  else none

/-- The response-error interceptor (`api.ts` lines 35-78) as a state
transformer. `refresh` is the outcome of the (single) refresh call made in
the 401 branch; `retryResult` is the result of `api(originalRequest)` when
the original call is re-issued. Returns the new session state, the request
object as the interceptor leaves it, and what flows back to the caller. -/
def handleResponseError {α : Type} (st : AuthState) (originalRequest : ApiRequest)
    (e : ErrorResponse) (refresh : RefreshOutcome) (retryResult : α) :
    AuthState × ApiRequest × InterceptorResult α :=
  if e.status = some 401 ∧ originalRequest.retryFlag = false ∧ truthy st.refreshToken = true then
    match refresh with
    | RefreshOutcome.success tok =>
        (updateTokens st tok none,
         { originalRequest with retryFlag := true, authHeader := some ("Bearer " ++ tok) },
         InterceptorResult.retried retryResult)
    | RefreshOutcome.failure =>
        (logout st,
         { originalRequest with retryFlag := true },
         InterceptorResult.sessionExpired "/login" "Session expired. Please login again.")
  else
    (st, originalRequest, InterceptorResult.rejected (otherErrorToast e))

/-- The persisted shape of a user as `onRehydrateStorage` sees it: the
current camelCase fields plus the possible legacy snake_case keys
(`state.user as any`, `authStore.ts` lines 88-122). A deleted or absent key
is `none`. -/
structure PersistedUser where
  id : String
  name : String
  email : String
  role : Role
  departmentId : Option String
  departmentName : Option String
  phone : Option String
  lastLogin : Option String
  createdAt : String
  department_id : Option String
  department_name : Option String
deriving DecidableEq

/-- The field migration of `onRehydrateStorage` (`authStore.ts` lines 90-121):
copy `department_id`/`department_name` into the camelCase fields when those
are unset, then delete the snake_case keys. Every condition reads the
original user, as in the source. -/
def migrateUser (u : PersistedUser) : PersistedUser :=
  let f1 :=
    if truthy u.departmentId = false ∧ truthy u.department_id = true then
      { u with departmentId := u.department_id }
    else u
  let f2 :=
    if truthy u.departmentName = false ∧ truthy u.department_name = true then
      { f1 with departmentName := u.department_name }
    else f1
  let f3 :=
    if truthy u.department_id = true then { f2 with department_id := none } else f2
  let f4 :=
    if truthy u.department_name = true then { f3 with department_name := none } else f3
  f4

/-- The persisted slice of the store (`partialize`, `authStore.ts` lines 82-87). -/
structure PersistedState where
  user : Option PersistedUser
  accessToken : Option String
  refreshToken : Option String
  isAuthenticated : Bool
deriving DecidableEq

/-- `onRehydrateStorage` (`authStore.ts` lines 88-122): applied to the
rehydrated state; migrates the stored user in place when one exists. -/
def onRehydrateStorage (s : Option PersistedState) : Option PersistedState :=
  match s with
  | none => none
  | some st =>
    match st.user with
    | none => some st
    | some u => some { st with user := some (migrateUser u) }

/-- A concrete user for witnesses and counterexamples. -/
def sampleUser : User :=
  { id := "u1"
    name := "Ada"
    email := "ada@example.com"
    role := Role.staff
    departmentId := none
    departmentName := none
    phone := none
    lastLogin := none
    createdAt := "2024-01-01" }

/-- A logged-in session with both credentials, for witnesses. -/
def authedState : AuthState :=
  { user := some sampleUser
    accessToken := some "oldAccess"
    refreshToken := some "refresh1"
    isAuthenticated := true
    isLoading := false }

/-- A fresh (never retried) request, for witnesses. -/
def freshRequest : ApiRequest :=
  { retryFlag := false
    authHeader := some "Bearer oldAccess" }

/-- A 401 error response, for witnesses. -/
def unauthorizedError : ErrorResponse :=
  { status := some 401
    errorMsg := none
    message := some "Request failed with status code 401" }

lemma jsOr0_eq (q : Int) : jsOr0 q = q := by
  unfold jsOr0
  split <;> simp_all

/-- Claim C1 (counterexample): the claimed direction rule for
`changeType = adjustment` is false at the claim's own instances: the preview
computes 10 + 3 = 13 (not 7) for `previousQuantity = 10, quantityChanged = 3`,
and 10 - 15 = -5 (not 25) for `quantityChanged = 15`. -/
theorem adjustment_preview_claim_false :
    ¬ (previewNewStock ChangeType.adjustment 10 3 = 7) ∧
    ¬ (previewNewStock ChangeType.adjustment 10 15 = 25) := by
  constructor <;> decide

/-- Claim C1 (amended): for `changeType = adjustment` and positive
`quantityChanged`, the preview INCREMENTS (`previousQuantity + quantityChanged`)
when `quantityChanged` does not exceed `previousQuantity`, and DECREMENTS
(`previousQuantity - quantityChanged`) when it exceeds it — the opposite
direction of the original claim; in particular `previousQuantity = 10,
quantityChanged = 3` gives 13 and `previousQuantity = 10, quantityChanged = 15`
gives -5. -/
theorem adjustment_preview_direction (prev q : Int) (hq : 0 < q) :
    previewNewStock ChangeType.adjustment prev q =
      (if prev < q then prev - q else prev + q) ∧
    previewNewStock ChangeType.adjustment 10 3 = 13 ∧
    previewNewStock ChangeType.adjustment 10 15 = -5 := by
  refine ⟨?_, by decide, by decide⟩
  unfold previewNewStock
  simp [jsOr0_eq]

/-- Witness for `adjustment_preview_direction` at `prev = 10`, `q = 3`. -/
theorem adjustment_preview_direction_witness :
    previewNewStock ChangeType.adjustment 10 3 =
      (if (10 : Int) < 3 then 10 - 3 else 10 + 3) :=
  (adjustment_preview_direction 10 3 (by decide)).1

/-- Claim C5: for positive `quantityChanged`, `restock` and `return` previews
add the quantity, `sale` subtracts it, as exact integer equations for every
`previousQuantity` (no clamping of a negative result); in particular
`10, restock, 5 ↦ 15` and `10, sale, 3 ↦ 7`, and a negative result such as
`0, sale, 3 ↦ -3` is produced as-is. -/
theorem preview_restock_sale_return (prev q : Int) (hq : 0 < q) :
    previewNewStock ChangeType.restock prev q = prev + q ∧
    previewNewStock ChangeType.«return» prev q = prev + q ∧
    previewNewStock ChangeType.sale prev q = prev - q ∧
    previewNewStock ChangeType.restock 10 5 = 15 ∧
    previewNewStock ChangeType.sale 10 3 = 7 ∧
    previewNewStock ChangeType.sale 0 3 = -3 := by
  refine ⟨?_, ?_, ?_, by decide, by decide, by decide⟩ <;>
    simp [previewNewStock, jsOr0_eq]

/-- Witness for `preview_restock_sale_return` at the claim's own instances. -/
theorem preview_restock_sale_return_witness :
    previewNewStock ChangeType.restock 10 5 = 15 ∧
    previewNewStock ChangeType.sale 10 3 = 7 :=
  ⟨(preview_restock_sale_return 10 5 (by decide)).2.2.2.1,
   (preview_restock_sale_return 10 3 (by decide)).2.2.2.2.1⟩

/-- Claim C2: the edit and stock-adjustment predicates agree; both deny when
there is no actor, allow a manager unconditionally, and allow a staff actor
exactly when the actor's `departmentId` is set (truthy) and equals the
resource's `department_id` — so a staff actor with no department and a
resource with no department are always denied; deletion allows exactly the
managers, independent of department. -/
theorem authorization_cases (u? : Option User) (p : Product) :
    canAdjustStock u? p = canEditProduct u? p ∧
    (canEditProduct u? p = true ↔
      ∃ u, u? = some u ∧
        (u.role = Role.manager ∨
          (u.role = Role.staff ∧ truthy u.departmentId = true ∧
            p.department_id = u.departmentId))) ∧
    (canDeleteProduct u? = true ↔ ∃ u, u? = some u ∧ u.role = Role.manager) := by
  refine ⟨rfl, ?_, ?_⟩
  · cases u? with
    | none => simp [canEditProduct]
    | some u =>
      cases hr : u.role with
      | manager => simp [canEditProduct, hr]
      | staff => simp [canEditProduct, hr, Bool.and_eq_true, beq_iff_eq]
  · cases u? with
    | none => simp [canDeleteProduct]
    | some u => simp [canDeleteProduct, beq_iff_eq]

/-- Claim C3: on the first 401 of a call (retry flag unset) while a refresh
credential exists, a successful refresh stores the new access credential in
the session store (`updateTokens` with the access token only), marks the
request as retried, re-issues it exactly once carrying the new bearer
credential, and returns that retried call's result to the caller. -/
theorem refresh_success_retries_once {α : Type} (st : AuthState) (req : ApiRequest)
    (e : ErrorResponse) (tok : String) (r : α)
    (h401 : e.status = some 401) (hfirst : req.retryFlag = false)
    (hrt : truthy st.refreshToken = true) :
    handleResponseError st req e (RefreshOutcome.success tok) r =
      (updateTokens st tok none,
       { req with retryFlag := true, authHeader := some ("Bearer " ++ tok) },
       InterceptorResult.retried r) ∧
    (updateTokens st tok none).accessToken = some tok := by
  constructor
  · simp [handleResponseError, h401, hfirst, hrt]
  · simp [updateTokens]

/-- Witness for `refresh_success_retries_once` on a concrete session. -/
theorem refresh_success_retries_once_witness :
    handleResponseError authedState freshRequest unauthorizedError
        (RefreshOutcome.success "newAccess") (0 : Nat) =
      (updateTokens authedState "newAccess" none,
       { freshRequest with retryFlag := true, authHeader := some ("Bearer " ++ "newAccess") },
       InterceptorResult.retried 0) ∧
    (updateTokens authedState "newAccess" none).accessToken = some "newAccess" :=
  refresh_success_retries_once authedState freshRequest unauthorizedError
    "newAccess" 0 (by decide) (by decide) (by decide)

/-- Claim C4: when the refresh attempt after a first 401 itself fails, the
session is cleared exactly once — actor and both credentials become `none`
and `isAuthenticated` becomes `false` — the caller is redirected to `/login`
with a "Session expired" error, and the original call is not re-issued
(the result is `sessionExpired`, not `retried`, and the request's retry flag
is set so no further refresh can trigger for it). -/
theorem refresh_failure_logs_out {α : Type} (st : AuthState) (req : ApiRequest)
    (e : ErrorResponse) (r : α)
    (h401 : e.status = some 401) (hfirst : req.retryFlag = false)
    (hrt : truthy st.refreshToken = true) :
    handleResponseError st req e RefreshOutcome.failure r =
      (logout st,
       { req with retryFlag := true },
       InterceptorResult.sessionExpired "/login" "Session expired. Please login again.") ∧
    (logout st).user = none ∧
    (logout st).accessToken = none ∧
    (logout st).refreshToken = none ∧
    (logout st).isAuthenticated = false := by
  refine ⟨?_, rfl, rfl, rfl, rfl⟩
  simp [handleResponseError, h401, hfirst, hrt]

/-- Witness for `refresh_failure_logs_out` on a concrete session. -/
theorem refresh_failure_logs_out_witness :
    handleResponseError authedState freshRequest unauthorizedError
        RefreshOutcome.failure (0 : Nat) =
      (logout authedState,
       { freshRequest with retryFlag := true },
       InterceptorResult.sessionExpired "/login" "Session expired. Please login again.") ∧
    (logout authedState).user = none ∧
    (logout authedState).accessToken = none ∧
    (logout authedState).refreshToken = none ∧
    (logout authedState).isAuthenticated = false :=
  refresh_failure_logs_out authedState freshRequest unauthorizedError 0
    (by decide) (by decide) (by decide)

/-- An authenticated session that has no refresh credential, for the C6
counterexample. -/
def noRefreshState : AuthState :=
  { user := some sampleUser
    accessToken := some "access2"
    refreshToken := none
    isAuthenticated := true
    isLoading := false }

/-- Claim C6 (counterexample): a 401 that cannot be recovered (here: no
refresh credential exists) does NOT produce a logout — the interceptor leaves
the session state completely unchanged (still authenticated, actor still
present) and merely rejects the error, contradicting "the session is
cleared". -/
theorem unrecoverable401_no_logout :
    (handleResponseError noRefreshState freshRequest unauthorizedError
        RefreshOutcome.failure (0 : Nat)).1 = noRefreshState ∧
    noRefreshState.isAuthenticated = true ∧
    noRefreshState.user = some sampleUser := by
  refine ⟨?_, rfl, rfl⟩
  decide

/-- Claim C6 (amended): for a 401 that cannot be recovered — the call is
already a retry, or no refresh credential exists — the interceptor attempts
no recovery: the session state and the request are left unchanged and the
error is rejected to the caller (after the fall-through toast rule), with no
logout in this branch. -/
theorem unrecoverable401_rejected {α : Type} (st : AuthState) (req : ApiRequest)
    (e : ErrorResponse) (rf : RefreshOutcome) (r : α)
    (h401 : e.status = some 401)
    (hbad : req.retryFlag = true ∨ truthy st.refreshToken = false) :
    handleResponseError st req e rf r =
      (st, req, InterceptorResult.rejected (otherErrorToast e)) := by
  rcases hbad with h | h <;> simp [handleResponseError, h]

/-- Witness for `unrecoverable401_rejected` on a concrete session with no
refresh credential. -/
theorem unrecoverable401_rejected_witness :
    handleResponseError noRefreshState freshRequest unauthorizedError
        RefreshOutcome.failure (0 : Nat) =
      (noRefreshState, freshRequest,
       InterceptorResult.rejected (otherErrorToast unauthorizedError)) :=
  unrecoverable401_rejected noRefreshState freshRequest unauthorizedError
    RefreshOutcome.failure 0 (by decide) (Or.inr (by decide))

/-- Claim C7 (counterexample): in the initial state no session exists
(`user = none`), yet `updateTokens` is not a no-op — it installs the access
credential and changes the state. -/
theorem updateTokens_no_session_changes_state :
    initialState.user = none ∧
    updateTokens initialState "t0" none ≠ initialState ∧
    (updateTokens initialState "t0" none).accessToken = some "t0" := by
  refine ⟨rfl, ?_, rfl⟩
  decide

/-- Claim C7 (amended): `updateTokens` performs no session-existence check.
In every state — also when no actor is logged in — it installs the access
credential, replaces the refresh credential only when the argument is truthy,
and leaves actor and authentication flag untouched. -/
theorem updateTokens_unconditional (st : AuthState) (tk : String) (rt : Option String) :
    (updateTokens st tk rt).accessToken = some tk ∧
    (updateTokens st tk rt).user = st.user ∧
    (updateTokens st tk rt).isAuthenticated = st.isAuthenticated ∧
    (updateTokens st tk rt).refreshToken =
      (if truthy rt = true then rt else st.refreshToken) := by
  refine ⟨rfl, rfl, rfl, rfl⟩

/-- A persisted user still carrying only the legacy snake_case department
fields, for the C8 witness. -/
def legacyUser : PersistedUser :=
  { id := "u2"
    name := "Grace"
    email := "grace@example.com"
    role := Role.staff
    departmentId := none
    departmentName := none
    phone := none
    lastLogin := none
    createdAt := "2023-05-05"
    department_id := some "D1"
    department_name := some "Electronics" }

/-- A persisted session holding `legacyUser`, for the C8 witness. -/
def legacyPersistedState : PersistedState :=
  { user := some legacyUser
    accessToken := some "a"
    refreshToken := some "r"
    isAuthenticated := true }

/-- Claim C8: rehydrating a persisted session whose stored user carries the
legacy flat `department_id` / `department_name` fields (and no current
camelCase values) yields a session whose user carries the legacy values in
`departmentId` / `departmentName`, with both legacy keys removed. -/
theorem rehydration_migrates_legacy_fields (st : PersistedState) (pu : PersistedUser)
    (hu : st.user = some pu)
    (hid : truthy pu.departmentId = false) (hlid : truthy pu.department_id = true)
    (hnm : truthy pu.departmentName = false) (hlnm : truthy pu.department_name = true) :
    onRehydrateStorage (some st) = some { st with user := some (migrateUser pu) } ∧
    (migrateUser pu).departmentId = pu.department_id ∧
    (migrateUser pu).departmentName = pu.department_name ∧
    (migrateUser pu).department_id = none ∧
    (migrateUser pu).department_name = none := by
  refine ⟨?_, ?_, ?_, ?_, ?_⟩ <;>
    simp [onRehydrateStorage, hu, migrateUser, hid, hlid, hnm, hlnm]

/-- Witness for `rehydration_migrates_legacy_fields` on a concrete legacy
session. -/
theorem rehydration_migrates_legacy_fields_witness :
    onRehydrateStorage (some legacyPersistedState) =
      some { legacyPersistedState with user := some (migrateUser legacyUser) } ∧
    (migrateUser legacyUser).departmentId = legacyUser.department_id ∧
    (migrateUser legacyUser).departmentName = legacyUser.department_name ∧
    (migrateUser legacyUser).department_id = none ∧
    (migrateUser legacyUser).department_name = none :=
  rehydration_migrates_legacy_fields legacyPersistedState legacyUser
    rfl (by decide) (by decide) (by decide) (by decide)

/-- A state satisfying the session invariant with an actor but no access
token, for the C9 counterexample. -/
def tokenlessState : AuthState :=
  { user := some sampleUser
    accessToken := none
    refreshToken := none
    isAuthenticated := false
    isLoading := false }

/-- Claim C9 (counterexample): the invariant
`isAuthenticated == (user present && accessToken present)` is NOT preserved
by `updateTokens`: on a state with an actor but no access token (which
satisfies the invariant), installing an access token makes the right-hand
side true while `isAuthenticated` stays false. -/
theorem invariant_not_preserved_by_updateTokens :
    sessionInvariant tokenlessState = true ∧
    sessionInvariant (updateTokens tokenlessState "t1" none) = false := by
  constructor <;> decide

/-- Claim C9 (amended): the session invariant
`isAuthenticated == (user present && accessToken present)` holds in the
initial state; it is preserved by `login`, `logout` and `updateUser` for all
arguments, and by `updateTokens` for all arguments provided the pre-state
does not pair an actor with an absent access token (as in every state the
operations themselves can reach). -/
theorem session_invariant_preserved :
    sessionInvariant initialState = true ∧
    (∀ (st : AuthState) (u : User) (a r : String),
      sessionInvariant (login st u a r) = true) ∧
    (∀ st : AuthState, sessionInvariant (logout st) = true) ∧
    (∀ (st : AuthState) (upd : UserUpdate),
      sessionInvariant st = true → sessionInvariant (updateUser st upd) = true) ∧
    (∀ (st : AuthState) (a : String) (r : Option String),
      sessionInvariant st = true →
      (st.user.isSome = true → st.accessToken.isSome = true) →
      sessionInvariant (updateTokens st a r) = true) := by
  refine ⟨rfl, fun st u a r => rfl, fun st => rfl, ?_, ?_⟩
  · intro st upd h
    unfold updateUser
    cases hu : st.user with
    | none => simpa [hu] using h
    | some u => simpa [sessionInvariant, hu] using h
  · intro st a r h hok
    cases hu : st.user with
    | none => simp_all [sessionInvariant, updateTokens, hu]
    | some u =>
      have ha : st.accessToken.isSome = true := hok (by simp [hu])
      simp_all [sessionInvariant, updateTokens, hu]

/-- Witness for `session_invariant_preserved`: the `updateUser` and
`updateTokens` clauses applied in the initial state. -/
theorem session_invariant_preserved_witness :
    sessionInvariant
        (updateUser initialState
          { id := none, name := none, email := none, role := none,
            departmentId := none, departmentName := none, phone := none,
            lastLogin := none, createdAt := none }) = true ∧
    sessionInvariant (updateTokens initialState "t2" none) = true :=
  ⟨session_invariant_preserved.2.2.2.1 initialState
      { id := none, name := none, email := none, role := none,
        departmentId := none, departmentName := none, phone := none,
        lastLogin := none, createdAt := none } (by decide),
   session_invariant_preserved.2.2.2.2 initialState "t2" none
      (by decide) (by decide)⟩

/-- Claim C10: `updateTokens` called without a (truthy) refresh argument
changes only the access credential — actor, refresh credential and
authentication flag keep their values — and consequently the interceptor's
successful-refresh path, which calls `updateTokens` with the access token
only, preserves the stored refresh credential. -/
theorem updateTokens_frame (st : AuthState) (tk : String) (rt : Option String)
    (hfalsy : truthy rt = false) :
    updateTokens st tk rt = { st with accessToken := some tk } ∧
    (∀ (req : ApiRequest) (e : ErrorResponse) (tok : String) (r : Nat),
      (handleResponseError st req e (RefreshOutcome.success tok) r).1.refreshToken =
        st.refreshToken) := by
  constructor
  · simp [updateTokens, hfalsy]
  · intro req e tok r
    unfold handleResponseError
    split <;> simp [updateTokens, truthy]

/-- Witness for `updateTokens_frame` on a concrete logged-in session. -/
theorem updateTokens_frame_witness :
    updateTokens authedState "n1" none = { authedState with accessToken := some "n1" } :=
  (updateTokens_frame authedState "n1" none (by decide)).1

end SmartStock
